import Mathlib

/-!
Verification of the voxelengine core against its specification.

This file is a shallow embedding, in Lean 4, of the parts of the engine that
the specification's testable claims talk about: the packed `Voxel` value and
the chunk-local index arithmetic (`include/Shared/Types.hpp`), the chunk
container (`include/Shared/Chunk.hpp`), the block registry
(`include/Shared/BlockRegistry.hpp`), the thread-safe world container
(`src/Server/World.cpp`), the fluid simulator
(`include/Server/FluidSimulator.hpp`), the greedy mesh generator
(`src/Client/MeshGenerator.cpp`), the mesh task queue
(`include/Client/MeshTaskQueue.hpp`) and the voxel raycaster
(`include/Shared/Raycast.hpp`).

Machine integers are modelled as `Nat`/`Int` with explicit reductions
(`% 2^32`, masking) where the C++ code relies on fixed-width behaviour.
C++ two's-complement `x & 63` on a signed integer equals the non-negative
residue `x mod 64`, which is `Int.emod x 64`; the arithmetic right shift
`x >> 6` equals floor division by 64, which for the positive divisor 64 is
`Int.ediv x 64`.  Sequential semantics are used throughout: each C++
critical section becomes one atomic step of the Lean model.
-/

namespace voxel

/-! ## Voxel (`include/Shared/Types.hpp`, `struct Voxel`)

A voxel is one packed 32-bit word: bits 0-15 the type id, bits 16-19 sunlight,
bits 20-23 torchlight, bits 24-31 metadata.  `data` is kept as a `Nat` that is
always below `2^32`. -/

structure Voxel where
  data : Nat
deriving DecidableEq, Repr

/-- Default constructor `Voxel()`: air (all bits zero). -/
def Voxel.air : Voxel := ⟨0⟩

/-- `explicit Voxel(std::uint32_t raw)`. -/
def Voxel.ofRaw (raw : Nat) : Voxel := ⟨raw % 2 ^ 32⟩

/-- Four-argument constructor `Voxel(type, sunlight, torchlight, metadata)`.
The parameter types truncate the arguments to 16 / 8 bits. -/
def Voxel.make (type sunlight torchlight metadata : Nat) : Voxel :=
  ⟨(type % 2 ^ 16) |||
    (((sunlight % 2 ^ 8) &&& 0x0F) <<< 16) |||
    (((torchlight % 2 ^ 8) &&& 0x0F) <<< 20) |||
    ((metadata % 2 ^ 8) <<< 24)⟩

def Voxel.type_id (v : Voxel) : Nat := v.data &&& 0xFFFF

def Voxel.sunlight (v : Voxel) : Nat := (v.data &&& 0x000F0000) >>> 16

def Voxel.torchlight (v : Voxel) : Nat := (v.data &&& 0x00F00000) >>> 20

def Voxel.metadata (v : Voxel) : Nat := (v.data &&& 0xFF000000) >>> 24

/-- `set_metadata`: `data = (data & ~METADATA_MASK) | (uint32(meta) << 24)`;
`~METADATA_MASK` as a 32-bit word is `0x00FFFFFF`. -/
def Voxel.set_metadata (v : Voxel) (meta : Nat) : Voxel :=
  ⟨(v.data &&& 0x00FFFFFF) ||| ((meta % 2 ^ 8) <<< 24)⟩

def Voxel.is_air (v : Voxel) : Bool := v.type_id == 0

/-! ## Chunk-local coordinates (`include/Shared/Types.hpp`, `namespace coord`)

`LocalCoord` is a signed 32-bit integer, modelled as `Int`; `VoxelIndex` is an
unsigned 32-bit integer, modelled as `Nat`.  The C++ `x & CHUNK_MASK` on the
signed input is the non-negative residue `Int.emod x 64`. -/

namespace coord

/-- `coord::to_index`: `((x & 63) << 12) | ((z & 63) << 6) | (y & 63)`. -/
def to_index (x y z : Int) : Nat :=
  (((x % 64).toNat) <<< 12) ||| (((z % 64).toNat) <<< 6) ||| ((y % 64).toNat)

/-- `coord::index_to_x`: `(index >> 12) & 63`. -/
def index_to_x (index : Nat) : Int := ((index >>> 12) &&& 63 : Nat)

/-- `coord::index_to_y`: `index & 63`. -/
def index_to_y (index : Nat) : Int := (index &&& 63 : Nat)

/-- `coord::index_to_z`: `(index >> 6) & 63`. -/
def index_to_z (index : Nat) : Int := ((index >>> 6) &&& 63 : Nat)

/-- `coord::world_to_chunk`: arithmetic right shift by 6 = floor division by 64. -/
def world_to_chunk (world : Int) : Int := world / 64

/-- `coord::world_to_local`: `world & CHUNK_MASK`. -/
def world_to_local (world : Int) : Int := world % 64

/-- `coord::chunk_to_world`: `chunk << 6`. -/
def chunk_to_world (chunk : Int) : Int := chunk * 64

end coord

/-! ## ChunkPosition and Chunk (`include/Shared/Types.hpp`, `include/Shared/Chunk.hpp`)

`ChunkCoord` is a signed 64-bit integer, modelled as `Int`.  The chunk's 1 MiB
voxel array is modelled as a total function from flat indices; every access
the engine performs goes through `coord::to_index`, whose result is below
262144. -/

structure ChunkPosition where
  x : Int
  y : Int
  z : Int
deriving DecidableEq, Repr

/-- World boundary constants: `WORLD_BOUND_MAX` / `WORLD_BOUND_MIN`. -/
def WORLD_BOUND_MAX : Int := 10000000

def WORLD_BOUND_MIN : Int := -10000000

/-- Chunk lifecycle state (`Chunk::State`). -/
inductive ChunkState where
  | UNLOADED
  | LOADING
  | LOADED
  | DIRTY
  | MESHING
  | READY
  | UNLOADING
deriving DecidableEq, Repr

structure Chunk where
  voxels : Nat → Voxel
  m_position : ChunkPosition
  m_state : ChunkState
  m_fully_dirty : Bool

/-- `Chunk::mark_dirty`. -/
def Chunk.mark_dirty (c : Chunk) : Chunk :=
  { c with
    m_state :=
      if c.m_state = ChunkState.LOADED ∨ c.m_state = ChunkState.READY then ChunkState.DIRTY
      else c.m_state,
    m_fully_dirty := true }

/-- `Chunk(ChunkPosition pos)`: air-filled storage, state LOADED, fully dirty. -/
def Chunk.new (pos : ChunkPosition) : Chunk :=
  { voxels := fun _ => Voxel.air
    m_position := pos
    m_state := ChunkState.LOADED
    m_fully_dirty := true }

/-- `Chunk::get(LocalCoord, LocalCoord, LocalCoord)`. -/
def Chunk.get (c : Chunk) (x y z : Int) : Voxel :=
  c.voxels (coord.to_index x y z)

/-- `Chunk::set(LocalCoord, LocalCoord, LocalCoord, Voxel)`. -/
def Chunk.set (c : Chunk) (x y z : Int) (v : Voxel) : Chunk :=
  (({ c with
      voxels := fun i => if i = coord.to_index x y z then v else c.voxels i } : Chunk)).mark_dirty

/-! ## World (`include/Server/World.hpp`, `src/Server/World.cpp`)

The chunk map is a function `ChunkPosition → Option Chunk`; the dirty set
(`std::unordered_set<ChunkPosition>`) is a duplicate-free list.  The generator
is kept abstract: a predicate `should_generate` and a chunk transformer
`generate`, exactly the `WorldGenerator` interface surface that
`World::generate_chunk` uses.  Locks serialize every critical section, so the
sequential model performs each locked section as one step. -/

structure WorldConfig where
  seed : Nat
  min_chunk_y : Int
  max_chunk_y : Int

/-- Default `WorldConfig`: vertical chunk range -4..16. -/
def WorldConfig.default : WorldConfig :=
  { seed := 0, min_chunk_y := -4, max_chunk_y := 16 }

/-- The `WorldGenerator` interface surface used by `World::generate_chunk`. -/
structure WorldGenerator where
  should_generate : ChunkPosition → Bool
  generate : Chunk → Chunk

structure World where
  m_config : WorldConfig
  m_generator : Option WorldGenerator
  m_chunks : ChunkPosition → Option Chunk
  m_dirty_chunks : List ChunkPosition

/-- A world with no chunks loaded, no generator, and an empty dirty set. -/
def World.empty (config : WorldConfig) : World :=
  { m_config := config
    m_generator := none
    m_chunks := fun _ => none
    m_dirty_chunks := [] }

/-- `World::is_valid_chunk_y`. -/
def World.is_valid_chunk_y (w : World) (chunk_y : Int) : Bool :=
  w.m_config.min_chunk_y ≤ chunk_y ∧ chunk_y ≤ w.m_config.max_chunk_y

/-- `World::is_valid_world_pos`. -/
def World.is_valid_world_pos (x z : Int) : Bool :=
  WORLD_BOUND_MIN ≤ x ∧ x ≤ WORLD_BOUND_MAX ∧ WORLD_BOUND_MIN ≤ z ∧ z ≤ WORLD_BOUND_MAX

/-- `World::world_to_chunk_pos`. -/
def World.world_to_chunk_pos (world_x world_y world_z : Int) : ChunkPosition :=
  { x := coord.world_to_chunk world_x
    y := coord.world_to_chunk world_y
    z := coord.world_to_chunk world_z }

/-- `World::generate_chunk`: runs the generator if present and willing, then
sets the state to LOADED. -/
def World.generate_chunk (w : World) (c : Chunk) : Chunk :=
  let c1 :=
    match w.m_generator with
    | some g => if g.should_generate c.m_position then g.generate c else c
    | none => c
  { c1 with m_state := ChunkState.LOADED }

/-- `World::load_chunk`: bounds checks, then find-or-create under the chunk
lock.  Returns the resulting chunk (`none` models the C++ null return) and the
updated world. -/
def World.load_chunk (w : World) (pos : ChunkPosition) : Option Chunk × World :=
  if ¬ w.is_valid_chunk_y pos.y then (none, w)
  else if ¬ World.is_valid_world_pos (coord.chunk_to_world pos.x) (coord.chunk_to_world pos.z)
  then (none, w)
  else
    match w.m_chunks pos with
    | some existing => (some existing, w)
    | none =>
      let c := w.generate_chunk (Chunk.new pos)
      (some c, { w with m_chunks := fun p => if p = pos then some c else w.m_chunks p })

/-- `World::get_chunk` (shared lock). -/
def World.get_chunk (w : World) (pos : ChunkPosition) : Option Chunk :=
  w.m_chunks pos

/-- `World::get_voxel`: air for non-existent chunks. -/
def World.get_voxel (w : World) (world_x world_y world_z : Int) : Voxel :=
  let chunk_pos := World.world_to_chunk_pos world_x world_y world_z
  match w.get_chunk chunk_pos with
  | none => Voxel.air
  | some chunk =>
    chunk.get (coord.world_to_local world_x) (coord.world_to_local world_y)
      (coord.world_to_local world_z)

/-- `World::mark_chunk_dirty`: insert into the dirty set only if a chunk is
loaded at `pos` (`std::unordered_set::insert` keeps the set duplicate-free). -/
def World.mark_chunk_dirty (w : World) (pos : ChunkPosition) : World :=
  if (w.m_chunks pos).isSome then
    if pos ∈ w.m_dirty_chunks then w
    else { w with m_dirty_chunks := pos :: w.m_dirty_chunks }
  else w

/-- `World::consume_dirty_chunks`: drain and return the dirty set. -/
def World.consume_dirty_chunks (w : World) : List ChunkPosition × World :=
  (w.m_dirty_chunks, { w with m_dirty_chunks := [] })

/-- `World::has_dirty_chunks`. -/
def World.has_dirty_chunks (w : World) : Bool :=
  ¬ w.m_dirty_chunks.isEmpty

/-- The chunk positions adjacent across the mutated voxel's border faces: for
each axis whose local coordinate is 0 (resp. 63 = `CHUNK_SIZE - 1`), the
adjacent chunk position below (resp. above) on that axis.  These are exactly
the three `if / else if` chains in `World::set_voxel`, in source order. -/
def border_adjacent (cp : ChunkPosition) (lx ly lz : Int) : List ChunkPosition :=
  (if lx = 0 then [⟨cp.x - 1, cp.y, cp.z⟩]
   else if lx = 63 then [⟨cp.x + 1, cp.y, cp.z⟩] else []) ++
  (if ly = 0 then [⟨cp.x, cp.y - 1, cp.z⟩]
   else if ly = 63 then [⟨cp.x, cp.y + 1, cp.z⟩] else []) ++
  (if lz = 0 then [⟨cp.x, cp.y, cp.z - 1⟩]
   else if lz = 63 then [⟨cp.x, cp.y, cp.z + 1⟩] else [])

/-- The border-marking block of `World::set_voxel`: `mark_chunk_dirty` is
called in sequence on each border-adjacent chunk position. -/
def World.mark_borders (w : World) (cp : ChunkPosition) (lx ly lz : Int) : World :=
  (border_adjacent cp lx ly lz).foldl World.mark_chunk_dirty w

/-- `World::set_voxel`: load the owning chunk on demand, write the voxel,
mark the owning chunk dirty, then mark border-adjacent chunks dirty. -/
def World.set_voxel (w : World) (world_x world_y world_z : Int) (voxel : Voxel) :
    Bool × World :=
  let chunk_pos := World.world_to_chunk_pos world_x world_y world_z
  match w.load_chunk chunk_pos with
  | (none, w1) => (false, w1)
  | (some _, w1) =>
    match w1.m_chunks chunk_pos with
    | none => (false, w1)
    | some locked_chunk =>
      let local_x := coord.world_to_local world_x
      let local_y := coord.world_to_local world_y
      let local_z := coord.world_to_local world_z
      let c2 := locked_chunk.set local_x local_y local_z voxel
      let w2 : World :=
        { w1 with m_chunks := fun p => if p = chunk_pos then some c2 else w1.m_chunks p }
      let w3 := w2.mark_chunk_dirty chunk_pos
      (true, w3.mark_borders chunk_pos local_x local_y local_z)

/-! ## BlockRegistry (`include/Shared/BlockRegistry.hpp`)

`BlockProperties` keeps the fields the engine's algorithms consult; the three
`char[48]` texture-filename buffers and the four tint bytes are not consulted
by any modelled algorithm and are omitted.  One consequence of those buffers
matters and is modelled: in `register_defaults`, each brace initializer such
as `{"air", AIR, 0, 0, 0, false, true, false, 0, 0, 0, 0, 0, false}` supplies,
after the five leading fields (name, id, three texture layers), its remaining
elements to the `char texture_top_file[48]` member by aggregate brace
elision.  Every field after the filename buffers — `is_solid`,
`is_transparent`, `is_fluid`, the fluid and light parameters and
`render_all_faces` — is therefore left at its default member initializer for
every entry that `register_defaults` writes.  The registry table itself is a
value-initialized array of 256 entries, modelled as a total function. -/

structure BlockProperties where
  name : String
  id : Nat
  texture_top : Nat
  texture_side : Nat
  texture_bottom : Nat
  is_solid : Bool
  is_transparent : Bool
  is_fluid : Bool
  fluid_viscosity : Nat
  fluid_max_distance : Nat
  fluid_source_id : Nat
  light_emission : Nat
  light_filter : Nat
  render_all_faces : Bool
deriving DecidableEq, Repr

/-- The default member initializers of `BlockProperties`. -/
def BlockProperties.default : BlockProperties :=
  { name := "unknown"
    id := 0
    texture_top := 0
    texture_side := 0
    texture_bottom := 0
    is_solid := true
    is_transparent := false
    is_fluid := false
    fluid_viscosity := 2
    fluid_max_distance := 7
    fluid_source_id := 0
    light_emission := 0
    light_filter := 15
    render_all_faces := false }

/-- A registry table: conceptually `std::array<BlockProperties, 256>`, with
indices at or above 256 never stored. -/
def BlockTable : Type := Nat → BlockProperties

/-- `BlockRegistry::get`: entries below `MAX_BLOCK_TYPES` (256) come from the
table; any higher id falls back to entry 0. -/
def BlockRegistry.get (blocks : BlockTable) (id : Nat) : BlockProperties :=
  if id < 256 then blocks id else blocks 0

/-- `BlockRegistry::register_defaults`: writes entries 0-9 of the
value-initialized table.  Per the brace-elision note above, each write sets
the name, id and the three texture layer indices; all later fields keep the
default member initializers. -/
def BlockRegistry.register_defaults : BlockTable := fun i =>
  if i = 0 then
    { BlockProperties.default with
      name := "air", id := 0, texture_top := 0,
      texture_side := 0, texture_bottom := 0 }
  else if i = 1 then
    { BlockProperties.default with
      name := "stone", id := 1, texture_top := 1,
      texture_side := 1, texture_bottom := 1 }
  else if i = 2 then
    { BlockProperties.default with
      name := "dirt", id := 2, texture_top := 2,
      texture_side := 2, texture_bottom := 2 }
  else if i = 3 then
    { BlockProperties.default with
      name := "grass", id := 3, texture_top := 3,
      texture_side := 4, texture_bottom := 2 }
  else if i = 4 then
    { BlockProperties.default with
      name := "water", id := 4, texture_top := 5,
      texture_side := 5, texture_bottom := 5 }
  else if i = 5 then
    { BlockProperties.default with
      name := "sand", id := 5, texture_top := 6,
      texture_side := 6, texture_bottom := 6 }
  else if i = 6 then
    { BlockProperties.default with
      name := "wood", id := 6, texture_top := 7,
      texture_side := 8, texture_bottom := 7 }
  else if i = 7 then
    { BlockProperties.default with
      name := "leaves", id := 7, texture_top := 9,
      texture_side := 9, texture_bottom := 9 }
  else if i = 8 then
    { BlockProperties.default with
      name := "glass", id := 8, texture_top := 10,
      texture_side := 10, texture_bottom := 10 }
  else if i = 9 then
    { BlockProperties.default with
      name := "light", id := 9, texture_top := 11,
      texture_side := 11, texture_bottom := 11 }
  else BlockProperties.default

/-! ## Face culling (`src/Client/MeshGenerator.cpp`, `build_face_masks`) -/

/-- Modelled from the spec: `Voxel::fluid_level` is referenced by
MeshGenerator.cpp but its declaration is not among the present sources.  Per
the spec's data model the fluid fill level is the voxel's 8-bit metadata
field, "used for fluid fill-level 0-8". -/
def Voxel.fluid_level (v : Voxel) : Nat := v.metadata

/-- Modelled from the spec: `Voxel::FLUID_LEVEL_FULL` is referenced by
MeshGenerator.cpp but its declaration is not among the present sources.  The
fill level ranges 0-8 and the full level is its maximum, 8. -/
def Voxel.FLUID_LEVEL_FULL : Nat := 8

/-- The face-culling decision of `MeshGenerator::build_face_masks` for one
voxel/neighbour pair (lines 146-163; the cross-chunk branch at lines 174-188
repeats the same code on the accessor-fetched neighbour). -/
def should_cull (blocks : BlockTable) (voxel neighbor : Voxel) : Bool :=
  if ¬ neighbor.is_air then
    let current_props := BlockRegistry.get blocks voxel.type_id
    let neighbor_props := BlockRegistry.get blocks neighbor.type_id
    if ¬ neighbor_props.is_transparent ∧ ¬ current_props.is_transparent then
      true
    else if current_props.is_fluid ∧ neighbor.type_id = voxel.type_id then
      let current_level :=
        if voxel.fluid_level = 0 then Voxel.FLUID_LEVEL_FULL else voxel.fluid_level
      let neighbor_level :=
        if neighbor.fluid_level = 0 then Voxel.FLUID_LEVEL_FULL else neighbor.fluid_level
      neighbor_level ≥ current_level
    else if neighbor_props.is_transparent ∧ current_props.is_transparent ∧
        neighbor.type_id = voxel.type_id then
      ¬ (BlockRegistry.get blocks voxel.type_id).render_all_faces
    else false
  else false

/-- The culling rule as the claim words it, with the fill levels compared as
stored: neighbour non-air, and (both opaque, or same fluid type with
equal-or-higher fill level, or same non-fluid transparent type without
render_all_faces). -/
def cull_per_claim (blocks : BlockTable) (voxel neighbor : Voxel) : Bool :=
  ¬ neighbor.is_air ∧
  ((¬ (BlockRegistry.get blocks neighbor.type_id).is_transparent ∧
    ¬ (BlockRegistry.get blocks voxel.type_id).is_transparent) ∨
   ((BlockRegistry.get blocks voxel.type_id).is_fluid ∧
    neighbor.type_id = voxel.type_id ∧
    neighbor.fluid_level ≥ voxel.fluid_level) ∨
   ((BlockRegistry.get blocks neighbor.type_id).is_transparent ∧
    (BlockRegistry.get blocks voxel.type_id).is_transparent ∧
    ¬ (BlockRegistry.get blocks voxel.type_id).is_fluid ∧
    neighbor.type_id = voxel.type_id ∧
    ¬ (BlockRegistry.get blocks voxel.type_id).render_all_faces))

/-- The effective fill level used by the culling comparison: a stored level
of 0 counts as the full level. -/
def effective_fluid_level (v : Voxel) : Nat :=
  if v.fluid_level = 0 then Voxel.FLUID_LEVEL_FULL else v.fluid_level

/-- Air as the engine's intended data-driven configuration registers it:
not solid, transparent, not a fluid. -/
def airProps : BlockProperties :=
  { BlockProperties.default with
    name := "air", id := 0, is_solid := false,
    is_transparent := true, light_filter := 0 }

/-- Water as the engine's intended data-driven configuration registers it:
non-solid transparent fluid with spread distance 7 and render_all_faces. -/
def waterProps : BlockProperties :=
  { BlockProperties.default with
    name := "water", id := 4, is_solid := false,
    is_transparent := true, is_fluid := true, fluid_viscosity := 4,
    fluid_max_distance := 7, fluid_source_id := 4, light_filter := 2,
    render_all_faces := true }

/-- A concrete registry table with air and water registered as the data-driven
configuration intends; all other slots keep the default properties. -/
def testBlocks : BlockTable := fun i =>
  if i = 0 then airProps else if i = 4 then waterProps else BlockProperties.default

/-! ## FluidSimulator (`include/Server/FluidSimulator.hpp`)

The simulator reads and writes voxels only through `World::get_voxel` /
`World::set_voxel`, so the world it sees is modelled as a total voxel store
over world coordinates (for in-bounds cells — the ones the fluid claims
quantify over — the real `World` behaves exactly like this store, see the C1
and C2 theorems).  `BlockRegistry::instance()` is the injected table. -/

def VoxelStore : Type := Int → Int → Int → Voxel

def VoxelStore.get (s : VoxelStore) (x y z : Int) : Voxel := s x y z

def VoxelStore.set (s : VoxelStore) (x y z : Int) (v : Voxel) : VoxelStore :=
  fun a b c => if a = x ∧ b = y ∧ c = z then v else s a b c

/-- An all-air voxel store, used by concrete instantiations. -/
def airStore : VoxelStore := fun _ _ _ => Voxel.air

/-- `struct FluidUpdate`. -/
structure FluidUpdate where
  x : Int
  y : Int
  z : Int
  fluid_id : Nat
  level : Nat
deriving DecidableEq, Repr

/-- `FluidSimulator::can_flow_into`: air, or registered neither solid nor
fluid. -/
def can_flow_into (blocks : BlockTable) (target : Voxel) : Bool :=
  if target.is_air then true
  else
    ¬ (BlockRegistry.get blocks target.type_id).is_solid ∧
    ¬ (BlockRegistry.get blocks target.type_id).is_fluid

/-- `FluidSimulator::schedule_update`: the updates pushed onto the pending
queue — one entry if the voxel at the position is registered as a fluid,
nothing otherwise. -/
def schedule_update (blocks : BlockTable) (s : VoxelStore) (x y z : Int) :
    List FluidUpdate :=
  let voxel := s.get x y z
  if (BlockRegistry.get blocks voxel.type_id).is_fluid then
    [⟨x, y, z, voxel.type_id, voxel.metadata⟩]
  else []

/-- The four horizontal spread directions, in source order. -/
def horizontal_dirs : List (Int × Int) := [(-1, 0), (1, 0), (0, -1), (0, 1)]

/-- `FluidSimulator::has_fluid_source_nearby`: fed from above by the same
fluid, or from a horizontal neighbour of the same fluid with a strictly lower
level. -/
def has_fluid_source_nearby (s : VoxelStore) (x y z : Int) (fluid_id : Nat) : Bool :=
  if (s.get x (y + 1) z).type_id = fluid_id then true
  else
    horizontal_dirs.any fun d =>
      let neighbor := s.get (x + d.1) y (z + d.2)
      neighbor.type_id = fluid_id ∧ neighbor.metadata < (s.get x y z).metadata

/-- `FluidSimulator::spread_horizontal`: `new_level = uint8(current_level+1)`;
nothing happens if it exceeds the max distance, otherwise each of the four
horizontal neighbours is flowed into (if flow-able) or relaxed to the shorter
path (same fluid with a strictly greater stored level, `new_level > 0`).
Returns the updated store and the scheduled updates, in source order. -/
def spread_horizontal (blocks : BlockTable) (s : VoxelStore) (x y z : Int)
    (fluid_id : Nat) (current_level max_distance : Nat) :
    VoxelStore × List FluidUpdate :=
  let new_level := (current_level + 1) % 256
  if max_distance < new_level then (s, [])
  else
    horizontal_dirs.foldl
      (fun acc d =>
        let nx := x + d.1
        let nz := z + d.2
        let neighbor := acc.1.get nx y nz
        if can_flow_into blocks neighbor then
          let s2 := acc.1.set nx y nz ((Voxel.ofRaw fluid_id).set_metadata new_level)
          (s2, acc.2 ++ schedule_update blocks s2 nx y nz)
        else if neighbor.type_id = fluid_id ∧ new_level < neighbor.metadata ∧
            0 < new_level then
          let s2 := acc.1.set nx y nz ((Voxel.ofRaw fluid_id).set_metadata new_level)
          (s2, acc.2 ++ schedule_update blocks s2 nx y nz)
        else acc)
      (s, [])

/-- `FluidSimulator::simulate_fluid`: skip non-fluids; flow down with priority
into a flow-able cell below (resetting the level to 0 and requeueing it, then
return); otherwise spread horizontally when below the max distance, and
finally revert a flowing (level > 0) cell to air when no feed is adjacent. -/
def simulate_fluid (blocks : BlockTable) (s : VoxelStore) (u : FluidUpdate) :
    VoxelStore × List FluidUpdate :=
  let current := s.get u.x u.y u.z
  if ¬ (BlockRegistry.get blocks current.type_id).is_fluid then (s, [])
  else
    let current_level := current.metadata
    let below := s.get u.x (u.y - 1) u.z
    if can_flow_into blocks below then
      let new_fluid := (Voxel.ofRaw current.type_id).set_metadata 0
      let s1 := s.set u.x (u.y - 1) u.z new_fluid
      (s1, schedule_update blocks s1 u.x (u.y - 1) u.z)
    else
      let r :=
        if current_level < (BlockRegistry.get blocks current.type_id).fluid_max_distance
        then
          spread_horizontal blocks s u.x u.y u.z current.type_id current_level
            (BlockRegistry.get blocks current.type_id).fluid_max_distance
        else (s, [])
      if 0 < current_level ∧
          ¬ has_fluid_source_nearby r.1 u.x u.y u.z current.type_id then
        (r.1.set u.x u.y u.z (Voxel.ofRaw 0), r.2)
      else r

/-- Iterated simulation bursts for queues holding at most one pending update:
in the vertical-column scenario every burst of `process_updates` drains a
single-element queue (the per-burst hash dedup never fires), so a burst is one
`simulate_fluid` call whose scheduled updates form the next burst's queue. -/
def fluid_iter (blocks : BlockTable) : Nat → VoxelStore → List FluidUpdate → VoxelStore
  | 0, s, _ => s
  | _ + 1, s, [] => s
  | n + 1, s, u :: _ =>
    let r := simulate_fluid blocks s u
    fluid_iter blocks n r.1 r.2

/-! ## Greedy meshing (`src/Client/MeshGenerator.cpp`)

`FaceSlice` is the 64×64 per-slice grid of `FaceData`, indexed by
`v * 64 + u`; a `voxel_type` of 0 marks an empty cell (the buffers are
zeroed before each direction).  The `SliceMask` bitset (`uint64` per row) is
modelled as a Boolean per cell.  Quads are recorded in slice coordinates
(u, v, width, height, face data); `add_face_quad` maps them 1-1 to vertex
quads, so quad counts and coverage are preserved. -/

structure FaceData where
  voxel_type : Nat
  light : Nat
  ao : Nat
  fluid_level : Nat
deriving DecidableEq, Repr

/-- The face data stored for a surviving face (`build_face_masks` lines
222-238): voxel type, full-brightness light, no ambient occlusion, and the
fluid level (0 remapped to full) for fluids, 0 otherwise. -/
def face_data_of (blocks : BlockTable) (voxel : Voxel) : FaceData :=
  { voxel_type := voxel.type_id
    light := 255
    ao := 0
    fluid_level :=
      if (BlockRegistry.get blocks voxel.type_id).is_fluid then
        if voxel.fluid_level = 0 then Voxel.FLUID_LEVEL_FULL else voxel.fluid_level
      else 0 }

/-- What `build_face_masks` leaves in the slice cell of the +Y face of local
voxel (x, y, z): `none` (cell stays zeroed) for an air voxel or a culled
face, the stored face data otherwise.  For the +Y direction the neighbour is
(x, y+1, z); outside the chunk it is fetched through the accessor when face
culling is enabled and an accessor exists, otherwise the face is drawn. -/
def pos_y_face_cell (blocks : BlockTable) (chunk : Chunk)
    (accessor : Option (Int → Int → Int → Voxel)) (enable_face_culling : Bool)
    (x y z : Int) : Option FaceData :=
  let voxel := chunk.get x y z
  if voxel.is_air then none
  else
    let cull :=
      if 0 ≤ x ∧ x < 64 ∧ 0 ≤ y + 1 ∧ y + 1 < 64 ∧ 0 ≤ z ∧ z < 64 then
        should_cull blocks voxel (chunk.get x (y + 1) z)
      else
        if enable_face_culling then
          match accessor with
          | some f =>
            should_cull blocks voxel
              (f (chunk.m_position.x * 64 + x) (chunk.m_position.y * 64 + (y + 1))
                (chunk.m_position.z * 64 + z))
          | none => false
        else false
    if enable_face_culling ∧ cull then none
    else some (face_data_of blocks voxel)

/-- The whole +Y face slice at height `y` as `build_face_masks` fills it: for
the +Y direction `u` is x and `v` is z, and the cell index is `v * 64 + u`;
cells not written keep the zeroed face data. -/
def pos_y_slice (blocks : BlockTable) (chunk : Chunk)
    (accessor : Option (Int → Int → Int → Voxel)) (enable_face_culling : Bool)
    (y : Int) : Nat → FaceData :=
  fun idx =>
    match pos_y_face_cell blocks chunk accessor enable_face_culling
      ((idx % 64 : Nat) : Int) y (((idx / 64) % 64 : Nat) : Int) with
    | some d => d
    | none => ⟨0, 0, 0, 0⟩

/-- A quad emitted by `greedy_mesh_slice`, in slice coordinates. -/
structure SliceQuad where
  u : Nat
  v : Nat
  width : Nat
  height : Nat
  data : FaceData
deriving DecidableEq, Repr

/-- The width-expansion loop of `greedy_mesh_slice`: grow while the next cell
in the row is unvisited and carries equal face data. -/
def expand_width (slice : Nat → FaceData) (visited : Nat → Nat → Bool)
    (start_data : FaceData) (v u width : Nat) : Nat :=
  if h : u + width < 64 then
    if visited v (u + width) then width
    else if ¬ (slice (v * 64 + (u + width)) = start_data) then width
    else expand_width slice visited start_data v u (width + 1)
  else width
termination_by 64 - (u + width)

/-- One row check of the height-expansion loop: every cell of the candidate
row across the current width is unvisited and carries equal face data. -/
def row_matches (slice : Nat → FaceData) (visited : Nat → Nat → Bool)
    (start_data : FaceData) (v u width : Nat) : Bool :=
  (List.range width).all fun du =>
    ¬ visited v (u + du) ∧ slice (v * 64 + (u + du)) = start_data

/-- The height-expansion loop of `greedy_mesh_slice`: grow while the entire
candidate row matches. -/
def expand_height (slice : Nat → FaceData) (visited : Nat → Nat → Bool)
    (start_data : FaceData) (v u width height : Nat) : Nat :=
  if h : v + height < 64 then
    if row_matches slice visited start_data (v + height) u width then
      expand_height slice visited start_data v u width (height + 1)
    else height
  else height
termination_by 64 - (v + height)

/-- Mark the merged rectangle as visited. -/
def mark_visited (visited : Nat → Nat → Bool) (v u width height : Nat) :
    Nat → Nat → Bool :=
  fun a b => if v ≤ a ∧ a < v + height ∧ u ≤ b ∧ b < u + width then true else visited a b

/-- The body of `greedy_mesh_slice` for one (v, u) cell: skip visited or
empty cells, otherwise expand width then height (1×1 when greedy meshing is
disabled), mark the rectangle visited and emit one quad. -/
def greedy_cell (enable_greedy : Bool) (slice : Nat → FaceData)
    (st : (Nat → Nat → Bool) × List SliceQuad) (v u : Nat) :
    (Nat → Nat → Bool) × List SliceQuad :=
  if st.1 v u then st
  else if (slice (v * 64 + u)).voxel_type = 0 then st
  else
    let start_data := slice (v * 64 + u)
    let width := if enable_greedy then expand_width slice st.1 start_data v u 1 else 1
    let height :=
      if enable_greedy then expand_height slice st.1 start_data v u width 1 else 1
    (mark_visited st.1 v u width height, st.2 ++ [⟨u, v, width, height, start_data⟩])

/-- `MeshGenerator::greedy_mesh_slice`: scan cells in v-major order starting
from a fresh visited mask, emitting quads in scan order.  The result is the
final state: the visited member buffer and the quads appended to the output
mesh (component 2). -/
def greedy_mesh_slice (enable_greedy : Bool) (slice : Nat → FaceData) :
    (Nat → Nat → Bool) × List SliceQuad :=
  (List.range 64).foldl
    (fun st v =>
      (List.range 64).foldl (fun st2 u => greedy_cell enable_greedy slice st2 v u) st)
    (fun _ _ => false, [])

/-- A chunk whose 64³ voxels all hold the same value. -/
def uniformChunk (s : Voxel) : Chunk :=
  { voxels := fun _ => s
    m_position := ⟨0, 0, 0⟩
    m_state := ChunkState.LOADED
    m_fully_dirty := true }

/-! ## MeshTaskQueue (`include/Client/MeshTaskQueue.hpp`)

Concurrency model: `m_pending_mutex` serializes the dedup check-and-insert at
the head of `queue_remesh` and the erase at the tail of `generate_mesh`, so
the queue's observable behaviour is a sequential state machine with two
events.  `queue_remesh` is one atomic event (the check-and-insert happens
before any copy work; a non-duplicate position is inserted and its job
submitted), and the completion of `generate_mesh` is the other (result pushed,
counter bumped, position erased from the queued set).  `jobs` is the multiset
of submitted-but-unfinished mesh jobs (the pool's queue plus active
workers). -/

structure MeshTaskQueue where
  m_queued_positions : List ChunkPosition
  jobs : Multiset ChunkPosition
  m_completed_count : Nat

/-- A freshly constructed queue: nothing queued, no jobs. -/
def MeshTaskQueue.init : MeshTaskQueue :=
  { m_queued_positions := [], jobs := 0, m_completed_count := 0 }

/-- `MeshTaskQueue::queue_remesh`: no-op if the position is already queued;
otherwise insert it and submit one mesh job for it. -/
def MeshTaskQueue.queue_remesh (q : MeshTaskQueue) (pos : ChunkPosition) :
    MeshTaskQueue :=
  if pos ∈ q.m_queued_positions then q
  else
    { q with
      m_queued_positions := pos :: q.m_queued_positions
      jobs := Multiset.cons pos q.jobs }

/-- The tail of `MeshTaskQueue::generate_mesh`: the job for `pos` completes,
the result is published, and `pos` is erased from the queued set. -/
def MeshTaskQueue.finish (q : MeshTaskQueue) (pos : ChunkPosition) : MeshTaskQueue :=
  { q with
    m_queued_positions := q.m_queued_positions.erase pos
    jobs := q.jobs.erase pos
    m_completed_count := q.m_completed_count + 1 }

/-- One observable event of the queue. -/
inductive MeshTaskQueue.Step : MeshTaskQueue → MeshTaskQueue → Prop where
  | queue (q : MeshTaskQueue) (pos : ChunkPosition) : Step q (q.queue_remesh pos)
  | finish (q : MeshTaskQueue) (pos : ChunkPosition) (h : pos ∈ q.jobs) :
      Step q (q.finish pos)

/-- States reachable from a freshly constructed queue. -/
inductive MeshTaskQueue.Reachable : MeshTaskQueue → Prop where
  | init : Reachable MeshTaskQueue.init
  | step {q r : MeshTaskQueue} : Reachable q → MeshTaskQueue.Step q r → Reachable r

/-- The dedup invariant: the queued set is duplicate-free and carries exactly
one in-flight job per queued position, none otherwise. -/
def MeshTaskQueue.Inv (q : MeshTaskQueue) : Prop :=
  q.m_queued_positions.Nodup ∧
  ∀ p : ChunkPosition, q.jobs.count p = if p ∈ q.m_queued_positions then 1 else 0

/-! ## VoxelRaycaster (`include/Shared/Raycast.hpp`)

The Amanatides-Woo traversal's `float`/`double` arithmetic is modelled over
exact rationals.  For the inputs of the raycast claim every floating-point
operation the C++ code performs is exact (the values are small dyadic
rationals; the only divisions are by ±1), so the rational model computes
exactly the values the float code computes; `10^30` stands in for the `1e30f`
sentinel.  `std::sqrt` in the normalization is modelled by `ratSqrt`, exact
on rational squares such as the axis-aligned unit directions used here.  The
`while (distance < max_distance)` loop is modelled with an explicit iteration
budget (`fuel`), large enough for any bounded run. -/

structure RaycastHit where
  block_x : Int
  block_y : Int
  block_z : Int
  normal_x : Int
  normal_y : Int
  normal_z : Int
  distance : ℚ
  hit_voxel : Voxel
  hit : Bool
deriving DecidableEq, Repr

/-- The default-constructed `RaycastHit` (no hit). -/
def RaycastHit.default : RaycastHit :=
  { block_x := 0, block_y := 0, block_z := 0
    normal_x := 0, normal_y := 0, normal_z := 0
    distance := 0, hit_voxel := Voxel.air, hit := false }

/-- Exact square root for rationals whose numerator and denominator are
perfect squares (the only inputs this development evaluates it on). -/
def ratSqrt (q : ℚ) : ℚ := (Nat.sqrt q.num.toNat : ℚ) / (Nat.sqrt q.den : ℚ)

/-- The traversal loop of `VoxelRaycaster::cast`: check the current voxel,
then step along the axis with the smallest accumulated parametric distance. -/
def cast_loop (get_voxel : Int → Int → Int → Voxel) (max_distance : ℚ)
    (step_x step_y step_z : Int) (t_delta_x t_delta_y t_delta_z : ℚ) :
    Nat → Int → Int → Int → ℚ → ℚ → ℚ → Int → ℚ → RaycastHit
  | 0, _, _, _, _, _, _, _, _ => RaycastHit.default
  | fuel + 1, x, y, z, t_max_x, t_max_y, t_max_z, last_axis, distance =>
    if distance < max_distance then
      let voxel := get_voxel x y z
      if ¬ voxel.is_air then
        { block_x := x, block_y := y, block_z := z
          normal_x := if last_axis = 0 then -step_x else 0
          normal_y := if last_axis = 1 then -step_y else 0
          normal_z := if last_axis = 2 then -step_z else 0
          distance := distance
          hit_voxel := voxel
          hit := true }
      else
        if t_max_x < t_max_y then
          if t_max_x < t_max_z then
            cast_loop get_voxel max_distance step_x step_y step_z
              t_delta_x t_delta_y t_delta_z fuel
              (x + step_x) y z (t_max_x + t_delta_x) t_max_y t_max_z 0 t_max_x
          else
            cast_loop get_voxel max_distance step_x step_y step_z
              t_delta_x t_delta_y t_delta_z fuel
              x y (z + step_z) t_max_x t_max_y (t_max_z + t_delta_z) 2 t_max_z
        else
          if t_max_y < t_max_z then
            cast_loop get_voxel max_distance step_x step_y step_z
              t_delta_x t_delta_y t_delta_z fuel
              x (y + step_y) z t_max_x (t_max_y + t_delta_y) t_max_z 1 t_max_y
          else
            cast_loop get_voxel max_distance step_x step_y step_z
              t_delta_x t_delta_y t_delta_z fuel
              x y (z + step_z) t_max_x t_max_y (t_max_z + t_delta_z) 2 t_max_z
    else RaycastHit.default

/-- `VoxelRaycaster::cast`: normalize the direction (rejecting near-zero
lengths), set up the per-axis step directions, parametric deltas and initial
boundary distances, and run the traversal loop. -/
def VoxelRaycaster.cast (fuel : Nat) (origin_x origin_y origin_z : ℚ)
    (dir_x dir_y dir_z : ℚ) (max_distance : ℚ)
    (get_voxel : Int → Int → Int → Voxel) : RaycastHit :=
  let dir_len := ratSqrt (dir_x * dir_x + dir_y * dir_y + dir_z * dir_z)
  if dir_len < 1 / 10000 then RaycastHit.default
  else
    let dx := dir_x / dir_len
    let dy := dir_y / dir_len
    let dz := dir_z / dir_len
    let x := ⌊origin_x⌋
    let y := ⌊origin_y⌋
    let z := ⌊origin_z⌋
    let step_x : Int := if 0 ≤ dx then 1 else -1
    let step_y : Int := if 0 ≤ dy then 1 else -1
    let step_z : Int := if 0 ≤ dz then 1 else -1
    let t_delta_x := if 1 / 10000 < |dx| then |1 / dx| else 10 ^ 30
    let t_delta_y := if 1 / 10000 < |dy| then |1 / dy| else 10 ^ 30
    let t_delta_z := if 1 / 10000 < |dz| then |1 / dz| else 10 ^ 30
    let t_max_x :=
      if 0 ≤ dx then (((x + 1 : Int) : ℚ) - origin_x) * t_delta_x
      else (origin_x - (x : ℚ)) * t_delta_x
    let t_max_y :=
      if 0 ≤ dy then (((y + 1 : Int) : ℚ) - origin_y) * t_delta_y
      else (origin_y - (y : ℚ)) * t_delta_y
    let t_max_z :=
      if 0 ≤ dz then (((z + 1 : Int) : ℚ) - origin_z) * t_delta_z
      else (origin_z - (z : ℚ)) * t_delta_z
    cast_loop get_voxel max_distance step_x step_y step_z
      t_delta_x t_delta_y t_delta_z fuel x y z t_max_x t_max_y t_max_z (-1) 0

/-! ## Theorems -/

/-! ## Bit-arithmetic helpers -/

/-- Disjoint-bit OR is addition: if `b < 2^k` then `(a <<< k) ||| b = a * 2^k + b`. -/
theorem lor_shift_eq_add {k a b : Nat} (hb : b < 2 ^ k) :
    (a <<< k) ||| b = a * 2 ^ k + b := by
  apply Nat.eq_of_testBit_eq
  intro i
  rw [Nat.testBit_lor, Nat.testBit_shiftLeft]
  rcases Nat.lt_or_ge i k with h | h
  · have h1 : ¬ (i ≥ k) := Nat.not_le.mpr h
    simp only [h1, decide_False, Bool.false_and, Bool.false_or]
    have h2 : (a * 2 ^ k + b).testBit i = ((a * 2 ^ k + b) % 2 ^ k).testBit i := by
      rw [Nat.testBit_mod_two_pow]
      simp [h]
    rw [h2]
    congr 1
    rw [Nat.mul_comm, Nat.mul_add_mod, Nat.mod_eq_of_lt hb]
  · have h1 : (i ≥ k) := h
    simp only [h1, decide_True, Bool.true_and]
    have hbz : b.testBit i = false := by
      apply Nat.testBit_lt_two_pow
      exact lt_of_lt_of_le hb (Nat.pow_le_pow_right (by norm_num) h)
    rw [hbz, Bool.or_false]
    rw [Nat.testBit, Nat.testBit]
    congr 2
    rw [Nat.shiftRight_eq_div_pow, Nat.shiftRight_eq_div_pow]
    have hpow : 2 ^ i = 2 ^ k * 2 ^ (i - k) := by
      rw [← pow_add]
      congr 1
      omega
    rw [hpow, ← Nat.div_div_eq_div_mul]
    congr 1
    rw [Nat.add_comm, Nat.add_mul_div_right _ _ (Nat.two_pow_pos k), Nat.div_eq_of_lt hb,
      Nat.zero_add]

/-- Masking with 63 is reduction mod 64. -/
theorem and_63_eq_mod (n : Nat) : n &&& 63 = n % 64 := by
  have h : (63 : Nat) = 2 ^ 6 - 1 := rfl
  rw [h, Nat.and_pow_two_sub_one_eq_mod]

/-- `to_index` in plain arithmetic form. -/
theorem coord.to_index_eq_arith (x y z : Int) :
    to_index x y z =
      4096 * (x % 64).toNat + 64 * (z % 64).toNat + (y % 64).toNat := by
  unfold to_index
  have hx : (x % 64).toNat < 64 := by
    have h1 : x % 64 < 64 := Int.emod_lt_of_pos x (by norm_num)
    omega
  have hy : (y % 64).toNat < 64 := by
    have h1 : y % 64 < 64 := Int.emod_lt_of_pos y (by norm_num)
    omega
  have hz : (z % 64).toNat < 64 := by
    have h1 : z % 64 < 64 := Int.emod_lt_of_pos z (by norm_num)
    omega
  rw [Nat.lor_assoc]
  have hinner : ((z % 64).toNat <<< 6) ||| (y % 64).toNat =
      (z % 64).toNat * 2 ^ 6 + (y % 64).toNat := by
    exact lor_shift_eq_add (by omega)
  rw [hinner]
  have houter : ((x % 64).toNat <<< 12) |||
      ((z % 64).toNat * 2 ^ 6 + (y % 64).toNat) =
      (x % 64).toNat * 2 ^ 12 + ((z % 64).toNat * 2 ^ 6 + (y % 64).toNat) := by
    apply lor_shift_eq_add
    have : (2 : Nat) ^ 12 = 4096 := by norm_num
    omega
  rw [houter]
  ring

/-- Decoding the arithmetic form of an index recovers each component. -/
theorem coord.decode_arith (a b c : Nat) (ha : a < 64) (hb : b < 64) (hc : c < 64) :
    ((4096 * a + 64 * b + c) >>> 12) &&& 63 = a ∧
    (4096 * a + 64 * b + c) &&& 63 = c ∧
    ((4096 * a + 64 * b + c) >>> 6) &&& 63 = b := by
  rw [Nat.shiftRight_eq_div_pow, Nat.shiftRight_eq_div_pow, and_63_eq_mod, and_63_eq_mod,
    and_63_eq_mod]
  have h12 : (2 : Nat) ^ 12 = 4096 := by norm_num
  have h6 : (2 : Nat) ^ 6 = 64 := by norm_num
  rw [h12, h6]
  omega

/-- Casting a `Nat` into `Int` and reducing mod 64 matches the `Nat` reduction. -/
theorem coord.cast_emod_toNat (n : Nat) : (((n : Int)) % 64).toNat = n % 64 := by
  have h : ((n : Int)) % 64 = ((n % 64 : Nat) : Int) := by
    push_cast
    rfl
  rw [h]
  exact Int.toNat_natCast _

/-! ### Voxel bit-field lemmas -/

theorem Voxel.type_id_lt (v : Voxel) : v.type_id < 65536 :=
  Nat.lt_succ_of_le Nat.and_le_right

theorem Voxel.set_metadata_type_id (v : Voxel) (m : Nat) :
    (v.set_metadata m).type_id = v.type_id := by
  unfold Voxel.set_metadata Voxel.type_id
  show ((v.data &&& 0x00FFFFFF) ||| ((m % 256) <<< 24)) &&& 0xFFFF = v.data &&& 0xFFFF
  rw [Nat.and_distrib_right, Nat.land_assoc]
  have h1 : (0x00FFFFFF &&& 0xFFFF : Nat) = 0xFFFF := by decide
  rw [h1]
  have h2 : ((m % 256) <<< 24) &&& 0xFFFF = 0 := by
    rw [Nat.shiftLeft_eq]
    have h3 : (0xFFFF : Nat) = 2 ^ 16 - 1 := by decide
    rw [h3, Nat.and_pow_two_sub_one_eq_mod]
    have h4 : m % 256 * 2 ^ 24 = (m % 256 * 256) * 2 ^ 16 := by ring
    rw [h4]
    exact Nat.mul_mod_left _ _
  rw [h2, Nat.or_zero]

theorem Voxel.set_metadata_zero_metadata (v : Voxel) :
    (v.set_metadata 0).metadata = 0 := by
  unfold Voxel.set_metadata Voxel.metadata
  show (((v.data &&& 0x00FFFFFF) ||| ((0 % 256) <<< 24)) &&& 0xFF000000) >>> 24 = 0
  have h0 : ((0 % 256 : Nat) <<< 24) = 0 := by decide
  rw [h0, Nat.or_zero, Nat.land_assoc]
  have h1 : (0x00FFFFFF &&& 0xFF000000 : Nat) = 0 := by decide
  rw [h1, Nat.and_zero, Nat.zero_shiftRight]

theorem Voxel.ofRaw_type_id (t : Nat) (h : t < 65536) : (Voxel.ofRaw t).type_id = t := by
  unfold Voxel.ofRaw Voxel.type_id
  show (t % 2 ^ 32) &&& 0xFFFF = t
  rw [Nat.mod_eq_of_lt (by omega)]
  have h3 : (0xFFFF : Nat) = 2 ^ 16 - 1 := by decide
  rw [h3, Nat.and_pow_two_sub_one_eq_mod]
  exact Nat.mod_eq_of_lt (by omega)

/-! ### Voxel store lemmas -/

theorem VoxelStore.get_set_self (s : VoxelStore) (x y z : Int) (v : Voxel) :
    (s.set x y z v).get x y z = v := by
  simp [VoxelStore.get, VoxelStore.set]

theorem VoxelStore.get_set_ne (s : VoxelStore) (x y z a b c : Int) (v : Voxel)
    (h : ¬ (a = x ∧ b = y ∧ c = z)) : (s.set x y z v).get a b c = s.get a b c := by
  simp only [VoxelStore.get, VoxelStore.set]
  rw [if_neg h]

theorem can_flow_into_air (blocks : BlockTable) (v : Voxel) (h : v.is_air = true) :
    can_flow_into blocks v = true := by
  unfold can_flow_into
  rw [if_pos h]

/-! ### Lemmas about the world container -/

theorem Chunk.get_after_set (c : Chunk) (x y z : Int) (v : Voxel) :
    (c.set x y z v).get x y z = v := by
  simp [Chunk.set, Chunk.get, Chunk.mark_dirty]

theorem World.mark_chunk_dirty_chunks (w : World) (p : ChunkPosition) :
    (w.mark_chunk_dirty p).m_chunks = w.m_chunks := by
  unfold World.mark_chunk_dirty
  split <;> [skip; rfl]
  split <;> rfl

theorem World.mark_chunk_dirty_mem_mono (w : World) (p q : ChunkPosition)
    (h : q ∈ w.m_dirty_chunks) : q ∈ (w.mark_chunk_dirty p).m_dirty_chunks := by
  unfold World.mark_chunk_dirty
  split
  · split
    · exact h
    · exact List.mem_cons_of_mem _ h
  · exact h

theorem World.mark_chunk_dirty_mem_self (w : World) (p : ChunkPosition)
    (h : (w.m_chunks p).isSome = true) : p ∈ (w.mark_chunk_dirty p).m_dirty_chunks := by
  unfold World.mark_chunk_dirty
  rw [if_pos h]
  split
  · assumption
  · exact List.mem_cons_self _ _

theorem World.foldl_mark_chunks (L : List ChunkPosition) (w : World) :
    (L.foldl World.mark_chunk_dirty w).m_chunks = w.m_chunks := by
  induction L generalizing w with
  | nil => rfl
  | cons p L ih => rw [List.foldl_cons, ih, World.mark_chunk_dirty_chunks]

theorem World.foldl_mark_mem_mono (L : List ChunkPosition) (w : World) (q : ChunkPosition)
    (h : q ∈ w.m_dirty_chunks) : q ∈ (L.foldl World.mark_chunk_dirty w).m_dirty_chunks := by
  induction L generalizing w with
  | nil => exact h
  | cons p L ih => exact ih _ (World.mark_chunk_dirty_mem_mono w p q h)

theorem World.foldl_mark_mem (L : List ChunkPosition) (w : World) (d : ChunkPosition)
    (hd : d ∈ L) (hloaded : (w.m_chunks d).isSome = true) :
    d ∈ (L.foldl World.mark_chunk_dirty w).m_dirty_chunks := by
  induction L generalizing w with
  | nil => cases hd
  | cons p L ih =>
    rw [List.foldl_cons]
    rcases List.mem_cons.mp hd with h | h
    · subst h
      exact World.foldl_mark_mem_mono L _ d (World.mark_chunk_dirty_mem_self w d hloaded)
    · exact ih _ h (by rw [World.mark_chunk_dirty_chunks]; exact hloaded)

theorem World.mark_borders_chunks (w : World) (cp : ChunkPosition) (lx ly lz : Int) :
    (w.mark_borders cp lx ly lz).m_chunks = w.m_chunks :=
  World.foldl_mark_chunks _ _

theorem World.load_chunk_some {w : World} {pos : ChunkPosition} {c : Chunk} {w1 : World}
    (h : w.load_chunk pos = (some c, w1)) :
    w1.m_chunks pos = some c ∧ w1.m_dirty_chunks = w.m_dirty_chunks ∧
      w1.m_config = w.m_config := by
  unfold World.load_chunk at h
  split at h
  · simp at h
  · split at h
    · simp at h
    · split at h
      next existing heq =>
        rw [Prod.mk.injEq] at h
        obtain ⟨h1, h2⟩ := h
        cases h1
        subst h2
        exact ⟨heq, rfl, rfl⟩
      next heq =>
        rw [Prod.mk.injEq] at h
        obtain ⟨h1, h2⟩ := h
        cases h1
        subst h2
        refine ⟨?_, rfl, rfl⟩
        simp

theorem World.load_chunk_none_iff (w : World) (pos : ChunkPosition) :
    (w.load_chunk pos).fst = none ↔
      ¬ (w.m_config.min_chunk_y ≤ pos.y ∧ pos.y ≤ w.m_config.max_chunk_y) ∨
      ¬ (WORLD_BOUND_MIN ≤ 64 * pos.x ∧ 64 * pos.x ≤ WORLD_BOUND_MAX ∧
         WORLD_BOUND_MIN ≤ 64 * pos.z ∧ 64 * pos.z ≤ WORLD_BOUND_MAX) := by
  unfold World.load_chunk
  simp only [World.is_valid_chunk_y, World.is_valid_world_pos, coord.chunk_to_world,
    WORLD_BOUND_MIN, WORLD_BOUND_MAX]
  split
  next hy =>
    simp only [decide_eq_true_eq] at hy
    exact iff_of_true rfl (Or.inl hy)
  next hy =>
    simp only [decide_eq_true_eq, not_not] at hy
    split
    next hxz =>
      simp only [decide_eq_true_eq] at hxz
      refine iff_of_true rfl (Or.inr ?_)
      intro hc
      exact hxz ⟨by omega, by omega, by omega, by omega⟩
    next hxz =>
      simp only [decide_eq_true_eq, not_not] at hxz
      apply iff_of_false
      · cases hm : w.m_chunks pos <;> simp [hm]
      · push_neg
        exact ⟨hy, by omega, by omega, by omega, by omega⟩

/-- C1 (amended): if `World::set_voxel(p, v)` returns true then a subsequent
`World::get_voxel(p)` returns `v`, and the dirty set (as drained by
`consume_dirty_chunks`) contains the chunk position owning `p` together with
every border-adjacent chunk position at which a chunk is currently loaded
(an unloaded border neighbour is skipped by `mark_chunk_dirty`). -/
theorem World.set_voxel_write_read_dirty (w : World) (wx wy wz : Int) (v : Voxel)
    (h : (w.set_voxel wx wy wz v).fst = true) :
    (w.set_voxel wx wy wz v).snd.get_voxel wx wy wz = v ∧
    World.world_to_chunk_pos wx wy wz ∈
      ((w.set_voxel wx wy wz v).snd.consume_dirty_chunks).fst ∧
    (∀ d ∈ border_adjacent (World.world_to_chunk_pos wx wy wz)
        (coord.world_to_local wx) (coord.world_to_local wy) (coord.world_to_local wz),
      ((w.set_voxel wx wy wz v).snd.m_chunks d).isSome = true →
        d ∈ ((w.set_voxel wx wy wz v).snd.consume_dirty_chunks).fst) := by
  unfold World.set_voxel at *
  dsimp only at h ⊢
  rcases hl : w.load_chunk (World.world_to_chunk_pos wx wy wz) with ⟨oc, w1⟩
  rw [hl] at h
  cases oc with
  | none => simp at h
  | some c =>
    dsimp only at h ⊢
    rcases hc : w1.m_chunks (World.world_to_chunk_pos wx wy wz) with _ | locked
    · rw [hc] at h
      dsimp only at h
      exact Bool.noConfusion h
    · clear h
      dsimp only
      set cp := World.world_to_chunk_pos wx wy wz with hcp
      set lx := coord.world_to_local wx with hlx
      set ly := coord.world_to_local wy with hly
      set lz := coord.world_to_local wz with hlz
      set c2 := locked.set lx ly lz v with hc2
      set w2 : World :=
        { m_config := w1.m_config, m_generator := w1.m_generator,
          m_chunks := fun p => if p = cp then some c2 else w1.m_chunks p,
          m_dirty_chunks := w1.m_dirty_chunks } with hw2
      have hch : ((w2.mark_chunk_dirty cp).mark_borders cp lx ly lz).m_chunks =
          w2.m_chunks := by
        rw [World.mark_borders_chunks, World.mark_chunk_dirty_chunks]
      have hcp2 : w2.m_chunks cp = some c2 := by
        rw [hw2]
        simp
      constructor
      · -- write-read consistency
        unfold World.get_voxel World.get_chunk
        dsimp only
        rw [← hcp, hch, hcp2, hc2]
        exact Chunk.get_after_set locked _ _ _ v
      constructor
      · -- owning chunk is in the drained dirty set
        unfold World.consume_dirty_chunks
        apply World.foldl_mark_mem_mono
        apply World.mark_chunk_dirty_mem_self
        rw [hcp2]
        rfl
      · -- loaded border-adjacent chunks are in the drained dirty set
        intro d hd hloaded
        unfold World.consume_dirty_chunks World.mark_borders
        unfold World.mark_borders at hloaded
        rw [World.foldl_mark_chunks, World.mark_chunk_dirty_chunks] at hloaded
        exact World.foldl_mark_mem _ _ _ hd
          (by rw [World.mark_chunk_dirty_chunks]; exact hloaded)

/-- C1 witness: a concrete successful `set_voxel` showing write-read consistency
and the owning chunk in the drained dirty set. -/
theorem World.set_voxel_write_read_dirty_witness :
    ((World.empty WorldConfig.default).set_voxel 5 6 7 (Voxel.make 1 0 0 0)).snd.get_voxel 5 6 7 =
      Voxel.make 1 0 0 0 ∧
    World.world_to_chunk_pos 5 6 7 ∈
      (((World.empty WorldConfig.default).set_voxel 5 6 7
          (Voxel.make 1 0 0 0)).snd.consume_dirty_chunks).fst :=
  ⟨(World.set_voxel_write_read_dirty (World.empty WorldConfig.default) 5 6 7
      (Voxel.make 1 0 0 0) (by decide)).1,
   (World.set_voxel_write_read_dirty (World.empty WorldConfig.default) 5 6 7
      (Voxel.make 1 0 0 0) (by decide)).2.1⟩

/-- C1 counterexample: on a fresh world, `set_voxel` at world position (0,0,0)
succeeds and the mutated voxel has local coordinate 0 on the x axis, yet the
x-adjacent chunk position (-1,0,0) is NOT in the drained dirty set, because no
chunk is loaded there and `mark_chunk_dirty` skips unloaded chunks. -/
theorem World.set_voxel_unloaded_border_not_dirty :
    ((World.empty WorldConfig.default).set_voxel 0 0 0 (Voxel.make 1 0 0 0)).fst = true ∧
    coord.world_to_local (0 : Int) = 0 ∧
    (⟨-1, 0, 0⟩ : ChunkPosition) ∉
      (((World.empty WorldConfig.default).set_voxel 0 0 0
          (Voxel.make 1 0 0 0)).snd.consume_dirty_chunks).fst := by
  decide

/-- The success of `set_voxel` is exactly the success of loading the owning
chunk: the re-find under the exclusive lock always sees the loaded chunk. -/
theorem World.set_voxel_fst (w : World) (wx wy wz : Int) (v : Voxel) :
    (w.set_voxel wx wy wz v).fst =
      ((w.load_chunk (World.world_to_chunk_pos wx wy wz)).fst).isSome := by
  unfold World.set_voxel
  dsimp only
  rcases hl : w.load_chunk (World.world_to_chunk_pos wx wy wz) with ⟨oc, w1⟩
  cases oc with
  | none => rfl
  | some c =>
    dsimp only
    rcases hc : w1.m_chunks (World.world_to_chunk_pos wx wy wz) with _ | locked
    · have hsome := (World.load_chunk_some hl).1
      rw [hc] at hsome
      exact absurd hsome (by simp)
    · rfl

/-- C2 (amended): `load_chunk` returns null exactly when the chunk Y is outside
the configured `min_chunk_y..max_chunk_y` range or the chunk's base world
coordinate `64 * floor(c / 64)` exceeds the ±10,000,000 horizontal bound, and
`set_voxel` fails exactly under the same condition on the owning chunk; on
world coordinates the horizontal acceptance interval is therefore
[-10,000,000, 10,000,063], not [-10,000,000, 10,000,000]. -/
theorem World.load_set_fail_iff_bounds (w : World) (pos : ChunkPosition)
    (wx wy wz : Int) (v : Voxel) :
    ((w.load_chunk pos).fst = none ↔
      ¬ (w.m_config.min_chunk_y ≤ pos.y ∧ pos.y ≤ w.m_config.max_chunk_y) ∨
      ¬ (WORLD_BOUND_MIN ≤ 64 * pos.x ∧ 64 * pos.x ≤ WORLD_BOUND_MAX ∧
         WORLD_BOUND_MIN ≤ 64 * pos.z ∧ 64 * pos.z ≤ WORLD_BOUND_MAX)) ∧
    ((w.set_voxel wx wy wz v).fst = false ↔
      ¬ (w.m_config.min_chunk_y ≤ wy / 64 ∧ wy / 64 ≤ w.m_config.max_chunk_y) ∨
      ¬ (-10000000 ≤ wx ∧ wx ≤ 10000063 ∧ -10000000 ≤ wz ∧ wz ≤ 10000063)) := by
  constructor
  · exact World.load_chunk_none_iff w pos
  · rw [show ((w.set_voxel wx wy wz v).fst = false) ↔
        ((w.set_voxel wx wy wz v).fst ≠ true) by simp]
    rw [World.set_voxel_fst]
    rw [show (((w.load_chunk (World.world_to_chunk_pos wx wy wz)).fst).isSome ≠ true) ↔
        ((w.load_chunk (World.world_to_chunk_pos wx wy wz)).fst = none) by
      cases (w.load_chunk (World.world_to_chunk_pos wx wy wz)).fst <;> simp]
    rw [World.load_chunk_none_iff]
    unfold World.world_to_chunk_pos coord.world_to_chunk
    dsimp only
    constructor
    · rintro (hy | hxz)
      · exact Or.inl hy
      · refine Or.inr ?_
        simp only [WORLD_BOUND_MIN, WORLD_BOUND_MAX] at hxz
        intro hc
        exact hxz ⟨by omega, by omega, by omega, by omega⟩
    · rintro (hy | hxz)
      · exact Or.inl hy
      · refine Or.inr ?_
        simp only [WORLD_BOUND_MIN, WORLD_BOUND_MAX]
        intro hc
        exact hxz ⟨by omega, by omega, by omega, by omega⟩

/-- C2 counterexample: world coordinate x = 10,000,001 exceeds the
±10,000,000 bound, yet `set_voxel` succeeds there (its owning chunk's base
coordinate 10,000,000 passes the bound check). -/
theorem World.set_voxel_beyond_bound_cex :
    ((World.empty WorldConfig.default).set_voxel 10000001 0 0 (Voxel.make 1 0 0 0)).fst = true ∧
    WORLD_BOUND_MAX < (10000001 : Int) := by
  decide

/-- C10: `mark_chunk_dirty(p)` puts `p` in the dirty set iff a chunk for `p`
is currently present (or it was already dirty); when no chunk is loaded at `p`
the call is a no-op leaving the world, and so the dirty set, unchanged. -/
theorem World.mark_chunk_dirty_only_loaded (w : World) (pos : ChunkPosition) :
    (pos ∈ (w.mark_chunk_dirty pos).m_dirty_chunks ↔
      (w.m_chunks pos).isSome = true ∨ pos ∈ w.m_dirty_chunks) ∧
    ((w.m_chunks pos).isSome = false → w.mark_chunk_dirty pos = w) := by
  constructor
  · constructor
    · intro hmem
      unfold World.mark_chunk_dirty at hmem
      split at hmem
      next hsome => exact Or.inl hsome
      next => exact Or.inr hmem
    · rintro (hs | hmem)
      · exact World.mark_chunk_dirty_mem_self w pos hs
      · exact World.mark_chunk_dirty_mem_mono w pos pos hmem
  · intro hnone
    unfold World.mark_chunk_dirty
    rw [if_neg (by simp [hnone])]

/-- C10 witness: marking an unloaded chunk position on a fresh world is a
no-op. -/
theorem World.mark_chunk_dirty_only_loaded_witness :
    (World.empty WorldConfig.default).mark_chunk_dirty ⟨1, 2, 3⟩ =
      World.empty WorldConfig.default :=
  (World.mark_chunk_dirty_only_loaded (World.empty WorldConfig.default) ⟨1, 2, 3⟩).2
    (by decide)

/-- C8: restricted to local coordinates with each component in [0,64),
`coord::to_index` is a bijection onto [0, 262144), with `index_to_x`,
`index_to_y`, `index_to_z` as its inverse (round-trip both ways); for all
inputs its result is always in [0, 262144). -/
theorem coord.to_index_bijection :
    (∀ x y z : Int, 0 ≤ x → x < 64 → 0 ≤ y → y < 64 → 0 ≤ z → z < 64 →
      coord.index_to_x (coord.to_index x y z) = x ∧
      coord.index_to_y (coord.to_index x y z) = y ∧
      coord.index_to_z (coord.to_index x y z) = z) ∧
    (∀ i : Nat, i < 262144 →
      coord.to_index (coord.index_to_x i) (coord.index_to_y i) (coord.index_to_z i) = i) ∧
    (∀ x y z : Int, coord.to_index x y z < 262144) := by
  have hb : ∀ t : Int, (t % 64).toNat < 64 := by
    intro t
    have h1 : t % 64 < 64 := Int.emod_lt_of_pos t (by norm_num)
    have h2 : 0 ≤ t % 64 := Int.emod_nonneg t (by norm_num)
    omega
  refine ⟨?_, ?_, ?_⟩
  · intro x y z hx0 hx hy0 hy hz0 hz
    have hdec := coord.decode_arith (x % 64).toNat (z % 64).toNat (y % 64).toNat
      (hb x) (hb z) (hb y)
    unfold coord.index_to_x coord.index_to_y coord.index_to_z
    rw [coord.to_index_eq_arith, hdec.1, hdec.2.1, hdec.2.2]
    refine ⟨?_, ?_, ?_⟩ <;> omega
  · intro i hi
    rw [coord.to_index_eq_arith]
    unfold coord.index_to_x coord.index_to_y coord.index_to_z
    rw [coord.cast_emod_toNat, coord.cast_emod_toNat, coord.cast_emod_toNat]
    rw [Nat.shiftRight_eq_div_pow, Nat.shiftRight_eq_div_pow, and_63_eq_mod, and_63_eq_mod,
      and_63_eq_mod]
    have h12 : (2 : Nat) ^ 12 = 4096 := by norm_num
    have h6 : (2 : Nat) ^ 6 = 64 := by norm_num
    rw [h12, h6]
    omega
  · intro x y z
    rw [coord.to_index_eq_arith]
    have h1 := hb x
    have h2 := hb y
    have h3 := hb z
    omega

/-- C7 (amended): `BlockRegistry::get` falls back to registry entry 0 only for
ids at or above `MAX_BLOCK_TYPES` (256); an unregistered id below 256 returns
that slot's default-constructed properties — solid, not transparent, not
fluid, named "unknown" — not the entry-0 air properties. -/
theorem BlockRegistry.get_fallback :
    (∀ blocks : BlockTable, ∀ id : Nat, 256 ≤ id →
      BlockRegistry.get blocks id = blocks 0) ∧
    (∀ id : Nat, 10 ≤ id → id < 256 →
      BlockRegistry.get BlockRegistry.register_defaults id = BlockProperties.default ∧
      BlockProperties.default.is_solid = true ∧
      BlockProperties.default.is_transparent = false ∧
      BlockProperties.default.is_fluid = false) := by
  constructor
  · intro blocks id h
    unfold BlockRegistry.get
    rw [if_neg (by omega)]
  · intro id h10 h256
    refine ⟨?_, rfl, rfl, rfl⟩
    unfold BlockRegistry.get BlockRegistry.register_defaults
    rw [if_pos h256]
    repeat rw [if_neg (by omega)]

/-- C7 witness: the fallback at id 300 and the default slot at id 10. -/
theorem BlockRegistry.get_fallback_witness :
    BlockRegistry.get BlockRegistry.register_defaults 300 =
      BlockRegistry.register_defaults 0 ∧
    BlockRegistry.get BlockRegistry.register_defaults 10 = BlockProperties.default :=
  ⟨BlockRegistry.get_fallback.1 BlockRegistry.register_defaults 300 (by decide),
   (BlockRegistry.get_fallback.2 10 (by decide) (by decide)).1⟩

/-- C7 counterexample: id 10 has no registered block definition, yet
`get(10)` is solid and differs from the entry-0 air properties, so the lookup
does not fall back to air-like defaults for it. -/
theorem BlockRegistry.get_unregistered_not_air :
    (BlockRegistry.get BlockRegistry.register_defaults 10).is_solid = true ∧
    BlockRegistry.get BlockRegistry.register_defaults 10 ≠
      BlockRegistry.get BlockRegistry.register_defaults 0 := by
  decide

/-- C3 (amended): for a non-air voxel, an air neighbour never culls, and the
face is culled iff the neighbour is non-air and: both are opaque, or the
neighbour has the same fluid type id with an equal-or-higher EFFECTIVE fill
level (a stored level of 0 counting as the full level 8 on both sides), or
both are the same non-fluid transparent type without render_all_faces. -/
theorem should_cull_iff (blocks : BlockTable) (voxel neighbor : Voxel)
    (_hv : voxel.is_air = false) :
    (neighbor.is_air = true → should_cull blocks voxel neighbor = false) ∧
    (should_cull blocks voxel neighbor = true ↔
      neighbor.is_air = false ∧
      (((BlockRegistry.get blocks neighbor.type_id).is_transparent = false ∧
        (BlockRegistry.get blocks voxel.type_id).is_transparent = false) ∨
       ((BlockRegistry.get blocks voxel.type_id).is_fluid = true ∧
        neighbor.type_id = voxel.type_id ∧
        effective_fluid_level voxel ≤ effective_fluid_level neighbor) ∨
       ((BlockRegistry.get blocks neighbor.type_id).is_transparent = true ∧
        (BlockRegistry.get blocks voxel.type_id).is_transparent = true ∧
        (BlockRegistry.get blocks voxel.type_id).is_fluid = false ∧
        neighbor.type_id = voxel.type_id ∧
        (BlockRegistry.get blocks voxel.type_id).render_all_faces = false))) := by
  constructor
  · intro ha
    unfold should_cull
    rw [if_neg (by simp [ha])]
  · unfold should_cull effective_fluid_level
    dsimp only
    generalize (BlockRegistry.get blocks neighbor.type_id).is_transparent = tn
    generalize hTc : (BlockRegistry.get blocks voxel.type_id).is_transparent = tc
    generalize hF : (BlockRegistry.get blocks voxel.type_id).is_fluid = fc
    generalize hR : (BlockRegistry.get blocks voxel.type_id).render_all_faces = rc
    generalize hA : neighbor.is_air = na
    cases tn <;> cases tc <;> cases fc <;> cases rc <;> cases na <;>
      by_cases hid : neighbor.type_id = voxel.type_id <;>
      simp_all [Voxel.FLUID_LEVEL_FULL]

/-- C3 witness: with the water/air registry, an air neighbour does not cull a
stone face. -/
theorem should_cull_iff_witness :
    should_cull testBlocks (Voxel.make 1 0 0 0) Voxel.air = false :=
  (should_cull_iff testBlocks (Voxel.make 1 0 0 0) Voxel.air (by decide)).1 (by decide)

/-- C3 counterexample: a water voxel at stored fill level 3 next to a
same-type water source at stored level 0 IS culled by the code (the source's
level is remapped to full=8 before comparison), while the claim's
equal-or-higher comparison on stored fill levels (0 >= 3 fails) says the face
must be kept. -/
theorem should_cull_raw_level_cex :
    should_cull testBlocks (Voxel.make 4 0 0 3) (Voxel.make 4 0 0 0) = true ∧
    cull_per_claim testBlocks (Voxel.make 4 0 0 3) (Voxel.make 4 0 0 0) = false := by
  decide

/-! ### Greedy-meshing lemmas -/

theorem expand_width_const (d : FaceData) (v u : Nat) :
    ∀ k w, u + w + k = 64 →
      expand_width (fun _ => d) (fun _ _ => false) d v u w = 64 - u := by
  intro k
  induction k with
  | zero =>
    intro w hw
    rw [expand_width, dif_neg (by omega)]
    omega
  | succ k ih =>
    intro w hw
    rw [expand_width, dif_pos (by omega), if_neg (by simp), if_neg (by simp)]
    exact ih (w + 1) (by omega)

theorem row_matches_const (d : FaceData) (v u width : Nat) :
    row_matches (fun _ => d) (fun _ _ => false) d v u width = true := by
  simp [row_matches]

theorem expand_height_const (d : FaceData) (u width : Nat) :
    ∀ k v h, v + h + k = 64 →
      expand_height (fun _ => d) (fun _ _ => false) d v u width h = 64 - v := by
  intro k
  induction k with
  | zero =>
    intro v h hv
    rw [expand_height, dif_neg (by omega)]
    omega
  | succ k ih =>
    intro v h hv
    rw [expand_height, dif_pos (by omega), if_pos (row_matches_const d _ u width)]
    exact ih v (h + 1) (by omega)

theorem mark_visited_full (a b : Nat) (ha : a < 64) (hb : b < 64) :
    mark_visited (fun _ _ => false) 0 0 64 64 a b = true := by
  unfold mark_visited
  rw [if_pos (by omega)]

theorem greedy_cell_skip (g : Bool) (slice : Nat → FaceData)
    (st : (Nat → Nat → Bool) × List SliceQuad) (v u : Nat) (h : st.1 v u = true) :
    greedy_cell g slice st v u = st := by
  unfold greedy_cell
  rw [if_pos h]

theorem foldl_row_skip (g : Bool) (slice : Nat → FaceData)
    (st : (Nat → Nat → Bool) × List SliceQuad) (v : Nat) (L : List Nat)
    (h : ∀ u ∈ L, st.1 v u = true) :
    L.foldl (fun st2 u => greedy_cell g slice st2 v u) st = st := by
  induction L with
  | nil => rfl
  | cons u L ih =>
    rw [List.foldl_cons, greedy_cell_skip g slice st v u (h u (List.mem_cons_self _ _))]
    exact ih fun x hx => h x (List.mem_cons_of_mem _ hx)

theorem foldl_rows_skip (g : Bool) (slice : Nat → FaceData)
    (st : (Nat → Nat → Bool) × List SliceQuad) (L Lu : List Nat)
    (h : ∀ v ∈ L, ∀ u ∈ Lu, st.1 v u = true) :
    L.foldl
      (fun st2 v => Lu.foldl (fun st3 u => greedy_cell g slice st3 v u) st2)
      st = st := by
  induction L with
  | nil => rfl
  | cons v L ih =>
    rw [List.foldl_cons,
      foldl_row_skip g slice st v _
        (fun u hu => h v (List.mem_cons_self _ _) u hu)]
    exact ih fun x hx u hu => h x (List.mem_cons_of_mem _ hx) u hu

/-- Greedy meshing merges a completely uniform non-empty slice into a single
64×64 quad. -/
theorem greedy_mesh_slice_const (slice : Nat → FaceData) (d : FaceData)
    (hd : d.voxel_type ≠ 0) (hconst : ∀ i, slice i = d) :
    (greedy_mesh_slice true slice).2 = [⟨0, 0, 64, 64, d⟩] := by
  have hslice : slice = fun _ => d := funext hconst
  subst hslice
  unfold greedy_mesh_slice
  rw [show List.range 64 = 0 :: List.map Nat.succ (List.range 63) from
    List.range_succ_eq_map 63, List.foldl_cons]
  have hcell :
      greedy_cell true (fun _ => d) ((fun _ _ => false), ([] : List SliceQuad)) 0 0 =
      (mark_visited (fun _ _ => false) 0 0 64 64, [⟨0, 0, 64, 64, d⟩]) := by
    unfold greedy_cell
    rw [if_neg (by simp), if_neg (by simpa using hd)]
    dsimp only
    rw [if_pos rfl, if_pos rfl]
    rw [expand_width_const d 0 0 63 1 (by omega)]
    rw [show (64 : Nat) - 0 = 64 from rfl]
    rw [expand_height_const d 0 64 63 0 1 (by omega)]
    rfl
  have hfirst :
      (0 :: List.map Nat.succ (List.range 63)).foldl
        (fun st2 u => greedy_cell true (fun _ => d) st2 0 u)
        ((fun _ _ => false), ([] : List SliceQuad)) =
      (mark_visited (fun _ _ => false) 0 0 64 64, [⟨0, 0, 64, 64, d⟩]) := by
    rw [List.foldl_cons, hcell]
    apply foldl_row_skip
    intro u hu
    rcases List.mem_map.mp hu with ⟨j, hj, rfl⟩
    exact mark_visited_full 0 _ (by omega) (by have := List.mem_range.mp hj; omega)
  rw [hfirst]
  have hcond : ∀ v ∈ List.map Nat.succ (List.range 63),
      ∀ u ∈ (0 :: List.map Nat.succ (List.range 63)),
      ((mark_visited (fun _ _ => false) 0 0 64 64,
        [(⟨0, 0, 64, 64, d⟩ : SliceQuad)]).1) v u = true := by
    intro v hv u hu
    rcases List.mem_map.mp hv with ⟨j, hj, rfl⟩
    have hu64 : u < 64 := by
      rcases List.mem_cons.mp hu with h0 | hmap
      · omega
      · rcases List.mem_map.mp hmap with ⟨j2, hj2, rfl⟩
        have := List.mem_range.mp hj2
        omega
    exact mark_visited_full _ u (by have := List.mem_range.mp hj; omega) hu64
  rw [foldl_rows_skip true (fun _ => d) _ _ _ hcond]

/-- On the +Y face of the top slice of a fully solid uniform chunk with no
neighbour accessor, every face survives with the voxel's face data. -/
theorem pos_y_face_cell_uniform (blocks : BlockTable) (s : Voxel)
    (hs : s.is_air = false) (x z : Int) :
    pos_y_face_cell blocks (uniformChunk s) none true x 63 z =
      some (face_data_of blocks s) := by
  unfold pos_y_face_cell
  dsimp only
  have hg : ∀ a b c : Int, (uniformChunk s).get a b c = s := fun _ _ _ => rfl
  rw [hg, if_neg (by simp [hs])]
  have hcond : ¬ (0 ≤ x ∧ x < 64 ∧ 0 ≤ (63 : Int) + 1 ∧ (63 : Int) + 1 < 64 ∧
      0 ≤ z ∧ z < 64) := by omega
  rw [if_neg hcond]
  simp

/-- The +Y slice at the top of a fully solid uniform chunk, with no neighbour
accessor, is uniformly the voxel's face data. -/
theorem pos_y_slice_uniform (blocks : BlockTable) (s : Voxel) (hs : s.is_air = false)
    (i : Nat) :
    pos_y_slice blocks (uniformChunk s) none true 63 i = face_data_of blocks s := by
  unfold pos_y_slice
  rw [pos_y_face_cell_uniform blocks s hs]

theorem MeshTaskQueue.inv_init : MeshTaskQueue.Inv MeshTaskQueue.init := by
  constructor
  · exact List.nodup_nil
  · intro p
    simp [MeshTaskQueue.init]

theorem MeshTaskQueue.inv_step {q r : MeshTaskQueue} (hq : MeshTaskQueue.Inv q)
    (hs : MeshTaskQueue.Step q r) : MeshTaskQueue.Inv r := by
  cases hs with
  | queue pos =>
    unfold MeshTaskQueue.queue_remesh
    split_ifs with hmem
    · exact hq
    · refine ⟨List.nodup_cons.mpr ⟨hmem, hq.1⟩, ?_⟩
      intro p
      by_cases hp : p = pos
      · subst hp
        rw [Multiset.count_cons_self, hq.2 p, if_neg hmem,
          if_pos (List.mem_cons_self _ _)]
      · rw [Multiset.count_cons_of_ne hp, hq.2 p]
        have hiff : p ∈ pos :: q.m_queued_positions ↔ p ∈ q.m_queued_positions := by
          simp [List.mem_cons, hp]
        by_cases hmem2 : p ∈ q.m_queued_positions
        · rw [if_pos hmem2, if_pos (hiff.mpr hmem2)]
        · rw [if_neg hmem2, if_neg (fun hc => hmem2 (hiff.mp hc))]
  | finish pos hmem =>
    have hqmem : pos ∈ q.m_queued_positions := by
      by_contra hc
      have h0 := hq.2 pos
      rw [if_neg hc] at h0
      exact absurd (Multiset.count_pos.mpr hmem) (by omega)
    refine ⟨hq.1.erase pos, ?_⟩
    unfold MeshTaskQueue.finish
    dsimp only
    intro p
    by_cases hp : p = pos
    · subst hp
      rw [Multiset.count_erase_self, hq.2 p, if_pos hqmem,
        if_neg (hq.1.not_mem_erase)]
    · rw [Multiset.count_erase_of_ne hp, hq.2 p]
      have hiff : p ∈ q.m_queued_positions.erase pos ↔ p ∈ q.m_queued_positions :=
        List.mem_erase_of_ne hp
      by_cases hmem2 : p ∈ q.m_queued_positions
      · rw [if_pos hmem2, if_pos (hiff.mpr hmem2)]
      · rw [if_neg hmem2, if_neg (fun hc => hmem2 (hiff.mp hc))]

/-- C4: greedy meshing merges a uniform region into one quad, not one quad
per voxel face: any 64×64 slice whose cells all carry equal non-empty face
data is emitted as a single quad covering the whole slice, and in particular
the +Y face of the top slice of a fully solid uniform chunk with no neighbour
accessor is one 64×64 quad rather than 4096 unit quads. -/
theorem greedy_mesh_solid_slab (blocks : BlockTable) (s : Voxel)
    (hs : s.is_air = false) :
    (∀ (slice : Nat → FaceData) (d : FaceData), d.voxel_type ≠ 0 →
      (∀ i : Nat, slice i = d) →
      (greedy_mesh_slice true slice).2 = [⟨0, 0, 64, 64, d⟩]) ∧
    (greedy_mesh_slice true (pos_y_slice blocks (uniformChunk s) none true 63)).2 =
      [⟨0, 0, 64, 64, face_data_of blocks s⟩] ∧
    ((greedy_mesh_slice true
        (pos_y_slice blocks (uniformChunk s) none true 63)).2).length = 1 := by
  have htype : (face_data_of blocks s).voxel_type ≠ 0 := by
    simp only [Voxel.is_air, beq_eq_false_iff_ne, ne_eq] at hs
    exact hs
  have h2 := greedy_mesh_slice_const _ (face_data_of blocks s) htype
    (pos_y_slice_uniform blocks s hs)
  exact ⟨greedy_mesh_slice_const, h2, by rw [h2]; rfl⟩

/-- C4 witness: the top face of a fully solid stone chunk is one quad. -/
theorem greedy_mesh_solid_slab_witness :
    ((greedy_mesh_slice true
        (pos_y_slice testBlocks (uniformChunk (Voxel.make 1 0 0 0)) none true
          63)).2).length = 1 :=
  (greedy_mesh_solid_slab testBlocks (Voxel.make 1 0 0 0) (by decide)).2.2

/-- C5: a second `queue_remesh` for a position still in the queued set is a
no-op (so exactly one mesh job exists for it), and at every reachable state
there is at most one in-flight mesh job per chunk position. -/
theorem MeshTaskQueue.queue_remesh_dedup :
    (∀ (q : MeshTaskQueue) (pos : ChunkPosition),
      pos ∈ q.m_queued_positions → q.queue_remesh pos = q) ∧
    (∀ q : MeshTaskQueue, MeshTaskQueue.Reachable q →
      ∀ pos : ChunkPosition, q.jobs.count pos ≤ 1) := by
  constructor
  · intro q pos h
    unfold MeshTaskQueue.queue_remesh
    rw [if_pos h]
  · intro q hreach
    have hinv : MeshTaskQueue.Inv q := by
      induction hreach with
      | init => exact MeshTaskQueue.inv_init
      | step hq hs ih => exact MeshTaskQueue.inv_step ih hs
    intro pos
    rw [hinv.2 pos]
    split <;> omega

/-- C5 witness: queueing (0,0,0) twice from a fresh queue leaves the state of
the first call unchanged, which carries one job for (0,0,0). -/
theorem MeshTaskQueue.queue_remesh_dedup_witness :
    (MeshTaskQueue.init.queue_remesh ⟨0, 0, 0⟩).queue_remesh ⟨0, 0, 0⟩ =
      MeshTaskQueue.init.queue_remesh ⟨0, 0, 0⟩ ∧
    (MeshTaskQueue.init.queue_remesh ⟨0, 0, 0⟩).jobs.count ⟨0, 0, 0⟩ ≤ 1 :=
  ⟨MeshTaskQueue.queue_remesh_dedup.1 _ ⟨0, 0, 0⟩ (by decide),
   MeshTaskQueue.queue_remesh_dedup.2 _
     (MeshTaskQueue.Reachable.step MeshTaskQueue.Reachable.init
       (MeshTaskQueue.Step.queue MeshTaskQueue.init ⟨0, 0, 0⟩)) ⟨0, 0, 0⟩⟩

/-- The downward-flow branch of `simulate_fluid` in isolation: a queued fluid
cell with a flow-able cell below writes a level-0 voxel of the same fluid
type below, schedules exactly that cell, and changes nothing else. -/
theorem simulate_fluid_flows_down (blocks : BlockTable) (s : VoxelStore) (u : FluidUpdate)
    (hfluid : (BlockRegistry.get blocks ((s.get u.x u.y u.z).type_id)).is_fluid = true)
    (hbelow : can_flow_into blocks (s.get u.x (u.y - 1) u.z) = true) :
    simulate_fluid blocks s u =
      (s.set u.x (u.y - 1) u.z
        ((Voxel.ofRaw ((s.get u.x u.y u.z).type_id)).set_metadata 0),
       [⟨u.x, u.y - 1, u.z, (s.get u.x u.y u.z).type_id, 0⟩]) := by
  unfold simulate_fluid
  dsimp only
  rw [if_neg (by simp [hfluid]), if_pos hbelow]
  congr 1
  unfold schedule_update
  dsimp only
  rw [VoxelStore.get_set_self, Voxel.set_metadata_type_id,
    Voxel.ofRaw_type_id _ (Voxel.type_id_lt _), if_pos hfluid,
    Voxel.set_metadata_zero_metadata]

/-- Column characterization: n single-update simulation bursts starting at a
fluid cell above an air column of length at least n convert exactly the n
cells below it to level-0 fluid of the same type, leaving every other cell of
the store unchanged. -/
theorem fluid_iter_column (blocks : BlockTable) (fid : Nat)
    (hf : (BlockRegistry.get blocks fid).is_fluid = true) (hlt : fid < 65536) :
    ∀ (n : Nat) (s : VoxelStore) (x y z : Int),
      (s.get x y z).type_id = fid →
      (∀ j : Nat, 1 ≤ j → j ≤ n → (s.get x (y - j) z).is_air = true) →
      ∀ (a b c : Int),
        (fluid_iter blocks n s [⟨x, y, z, fid, 0⟩]).get a b c =
          if a = x ∧ c = z ∧ y - n ≤ b ∧ b ≤ y - 1 then
            (Voxel.ofRaw fid).set_metadata 0
          else s.get a b c := by
  intro n
  induction n with
  | zero =>
    intro s x y z hsrc hair a b c
    rw [if_neg (by omega)]
    rfl
  | succ n ih =>
    intro s x y z hsrc hair a b c
    have hstep := simulate_fluid_flows_down blocks s ⟨x, y, z, fid, 0⟩
      (by rw [hsrc]; exact hf)
      (can_flow_into_air blocks _ (hair 1 le_rfl (by omega)))
    rw [hsrc] at hstep
    show (fluid_iter blocks (n + 1) s [⟨x, y, z, fid, 0⟩]).get a b c = _
    rw [show fluid_iter blocks (n + 1) s [⟨x, y, z, fid, 0⟩] =
      fluid_iter blocks n (simulate_fluid blocks s ⟨x, y, z, fid, 0⟩).1
        (simulate_fluid blocks s ⟨x, y, z, fid, 0⟩).2 from rfl]
    rw [hstep]
    have hsrc2 : (((s.set x (y - 1) z
        ((Voxel.ofRaw fid).set_metadata 0)).get x (y - 1) z)).type_id = fid := by
      rw [VoxelStore.get_set_self, Voxel.set_metadata_type_id, Voxel.ofRaw_type_id _ hlt]
    have hair2 : ∀ j : Nat, 1 ≤ j → j ≤ n →
        (((s.set x (y - 1) z ((Voxel.ofRaw fid).set_metadata 0)).get
          x ((y - 1) - j) z)).is_air = true := by
      intro j h1 h2
      rw [VoxelStore.get_set_ne _ _ _ _ _ _ _ _ (by intro hcon; omega)]
      rw [show (y - 1 - (j : Int)) = y - ((j + 1 : Nat) : Int) by push_cast; ring]
      exact hair (j + 1) (by omega) (by omega)
    rw [ih _ x (y - 1) z hsrc2 hair2 a b c]
    simp only [VoxelStore.get, VoxelStore.set]
    split_ifs <;> first | rfl | (exfalso; omega)

/-- C6: for a queued cell still holding a fluid whose below-cell is flow-able
(air, or registered neither solid nor fluid), the cell below becomes a voxel
of the same fluid type at metadata level 0 and is the only cell requeued, and
nothing else changes in that step (no horizontal spread, no recession);
consequently a fluid source above an air column converts every cell directly
below it to fluid at level 0 after enough simulation bursts. -/
theorem fluid_flow_down_priority (blocks : BlockTable) :
    (∀ (s : VoxelStore) (u : FluidUpdate),
      (BlockRegistry.get blocks ((s.get u.x u.y u.z).type_id)).is_fluid = true →
      can_flow_into blocks (s.get u.x (u.y - 1) u.z) = true →
      simulate_fluid blocks s u =
        (s.set u.x (u.y - 1) u.z
          ((Voxel.ofRaw ((s.get u.x u.y u.z).type_id)).set_metadata 0),
         [⟨u.x, u.y - 1, u.z, (s.get u.x u.y u.z).type_id, 0⟩])) ∧
    (∀ (fid n : Nat) (s : VoxelStore) (x y z : Int),
      (BlockRegistry.get blocks fid).is_fluid = true →
      (s.get x y z).type_id = fid →
      (∀ j : Nat, 1 ≤ j → j ≤ n → (s.get x (y - j) z).is_air = true) →
      ∀ j : Nat, 1 ≤ j → j ≤ n →
        ((fluid_iter blocks n s [⟨x, y, z, fid, 0⟩]).get x (y - j) z).type_id = fid ∧
        ((fluid_iter blocks n s [⟨x, y, z, fid, 0⟩]).get x (y - j) z).metadata = 0) := by
  constructor
  · exact fun s u hf hb => simulate_fluid_flows_down blocks s u hf hb
  · intro fid n s x y z hf hsrc hair j h1 h2
    have hlt : fid < 65536 := hsrc ▸ Voxel.type_id_lt _
    rw [fluid_iter_column blocks fid hf hlt n s x y z hsrc hair x (y - j) z]
    rw [if_pos (by refine ⟨rfl, rfl, by omega, by omega⟩)]
    exact ⟨by rw [Voxel.set_metadata_type_id, Voxel.ofRaw_type_id _ hlt],
      Voxel.set_metadata_zero_metadata _⟩

/-- C6 witness: a water source at (0,5,0) above an air column floods (0,2,0)
with a level-0 water voxel after three simulation bursts. -/
theorem fluid_flow_down_priority_witness :
    ((fluid_iter testBlocks 3
        (airStore.set 0 5 0 (Voxel.make 4 0 0 0))
        [⟨0, 5, 0, 4, 0⟩]).get 0 2 0).type_id = 4 ∧
    ((fluid_iter testBlocks 3
        (airStore.set 0 5 0 (Voxel.make 4 0 0 0))
        [⟨0, 5, 0, 4, 0⟩]).get 0 2 0).metadata = 0 :=
  (fluid_flow_down_priority testBlocks).2 4 3
    (airStore.set 0 5 0 (Voxel.make 4 0 0 0)) 0 5 0
    (by decide) (by decide)
    (fun j h1 h2 => by
      have hj : j = 1 ∨ j = 2 ∨ j = 3 := by omega
      rcases hj with h | h | h <;> subst h <;> decide)
    3 (by omega) (by omega)

/-- C8 witness: concrete round trips and a range check at an out-of-range
input. -/
theorem coord.to_index_bijection_witness :
    coord.index_to_x (coord.to_index 3 4 5) = 3 ∧
    coord.to_index (coord.index_to_x 77777) (coord.index_to_y 77777)
      (coord.index_to_z 77777) = 77777 ∧
    coord.to_index (-5) 100 7 < 262144 :=
  ⟨(coord.to_index_bijection.1 3 4 5 (by decide) (by decide) (by decide) (by decide)
      (by decide) (by decide)).1,
   coord.to_index_bijection.2.1 77777 (by decide),
   coord.to_index_bijection.2.2 (-5) 100 7⟩

/-- C9: casting from origin (0.5, 5, 0.5) straight down (direction (0,-1,0))
with max distance 10 against a world whose only solid voxel sits at (0,0,0)
hits: hit = true, block (0,0,0), face normal (0,1,0), and the reported
distance equals the geometric distance 4 exactly (all float operations are
exact at these inputs). -/
theorem raycast_straight_down :
    VoxelRaycaster.cast 10 (1 / 2) 5 (1 / 2) 0 (-1) 0 10
      (fun x y z => if x = 0 ∧ y = 0 ∧ z = 0 then Voxel.make 1 0 0 0 else Voxel.air) =
      { block_x := 0, block_y := 0, block_z := 0
        normal_x := 0, normal_y := 1, normal_z := 0
        distance := 4, hit_voxel := Voxel.make 1 0 0 0, hit := true } := by
  norm_num [VoxelRaycaster.cast, ratSqrt, cast_loop, Voxel.is_air, Voxel.type_id,
    Voxel.make, Voxel.air]

end voxel
